import Mathlib

/-!
Verification of the core behaviours of the research-task MCP server
(rate limiter, batch orchestrator, research agent, configuration wizard,
template suggestion), shallowly embedded from the TypeScript sources.
-/

namespace ResearchServer

/-! ## RateLimiter (src/rate-limiter.ts)

`waitIfNeeded` first filters `requestTimes` down to the entries with
`now - time < windowMs`, then either records `now` (when fewer than
`maxRequests` remain) or waits `windowMs - (now - oldest) + 100` ms and
re-runs itself.  Times are modelled as naturals (milliseconds); the
JavaScript critical section from the purge to the push contains no
suspension point, so one admission decision is one atomic step. -/

/-- The purge on lines 15-17: keep the timestamps with `now - time < windowMs`. -/
def purgeWindow (windowMs now : Nat) (times : List Nat) : List Nat :=
  times.filter (fun t => now - t < windowMs)

/-- One atomic admission decision (lines 11-33): purge, then either record
`now` (`some` of the new `requestTimes`) or report that the caller must wait
(`none`, after which the source waits and re-runs the whole check). -/
def waitIfNeededStep (maxRequests windowMs : Nat) (times : List Nat) (now : Nat) :
    Option (List Nat) :=
  if (purgeWindow windowMs now times).length < maxRequests
  then some (purgeWindow windowMs now times ++ [now]) else none

/-- The wait computed on line 22: `windowMs - (now - oldest) + 100`. -/
def rateLimiterWait (windowMs oldest now : Nat) : Nat :=
  windowMs - (now - oldest) + 100

/-- Fuel-bounded run of `waitIfNeeded` for one caller: on a full window the
source waits `rateLimiterWait` and recurses, so the clock advances by exactly
that amount before the next attempt.  Returns the admission time and the new
`requestTimes`. -/
def waitIfNeededRun (maxRequests windowMs : Nat) :
    Nat → List Nat → Nat → Option (Nat × List Nat)
  | 0, _, _ => none
  | fuel + 1, times, now =>
    let purged := purgeWindow windowMs now times
    if purged.length < maxRequests then some (now, purged ++ [now])
    else waitIfNeededRun maxRequests windowMs fuel purged
      (now + rateLimiterWait windowMs purged.headI now)

/-- Reachable states of one `RateLimiter`: `hist` is every admission ever
recorded (in order), `win` the current `requestTimes`.  Each admission
happens at a time `now` no earlier than every previous admission (the
`Date.now()` clock is monotone) and goes through `waitIfNeededStep`. -/
inductive RateLimiterTrace (maxRequests windowMs : Nat) : List Nat → List Nat → Prop where
  | init : RateLimiterTrace maxRequests windowMs [] []
  | step {hist win win' : List Nat} {now : Nat} :
      RateLimiterTrace maxRequests windowMs hist win →
      (∀ t ∈ hist, t ≤ now) →
      waitIfNeededStep maxRequests windowMs win now = some win' →
      RateLimiterTrace maxRequests windowMs (hist ++ [now]) win'

theorem purgeWindow_purgeWindow (windowMs m now : Nat) (l : List Nat)
    (hm : m ≤ now) :
    purgeWindow windowMs now (purgeWindow windowMs m l) = purgeWindow windowMs now l := by
  unfold purgeWindow
  rw [List.filter_filter]
  apply List.filter_congr
  intro t _
  by_cases h : now - t < windowMs
  · have : m - t < windowMs := lt_of_le_of_lt (Nat.sub_le_sub_right hm t) h
    simp [h, this]
  · simp [h]

theorem trace_win_subset {maxRequests windowMs : Nat} {hist win : List Nat}
    (h : RateLimiterTrace maxRequests windowMs hist win) :
    ∀ t ∈ win, t ∈ hist := by
  induction h with
  | init => intro t ht; exact absurd ht (List.not_mem_nil t)
  | step htr hmono hstep ih =>
    intro t ht
    unfold waitIfNeededStep at hstep
    split at hstep
    · rw [Option.some_inj] at hstep
      subst hstep
      rcases List.mem_append.mp ht with h1 | h1
      · exact List.mem_append.mpr (Or.inl (ih t (List.mem_of_mem_filter h1)))
      · exact List.mem_append.mpr (Or.inr h1)
    · exact absurd hstep (by simp)

/-- The current `requestTimes`, purged at any time `now` at or after every
recorded admission, agree with the purge of the full admission history: the
filter only ever removes entries that have aged out for good. -/
theorem trace_purge_eq {maxRequests windowMs : Nat} {hist win : List Nat}
    (h : RateLimiterTrace maxRequests windowMs hist win) :
    ∀ now, (∀ t ∈ hist, t ≤ now) →
      purgeWindow windowMs now win = purgeWindow windowMs now hist := by
  induction h with
  | init => intro now _; rfl
  | @step hist win win' m htr hmono hstep ih =>
    intro now hnow
    have hmnow : m ≤ now := hnow m (List.mem_append.mpr (Or.inr (List.mem_singleton.mpr rfl)))
    have hhist : ∀ t ∈ hist, t ≤ now := fun t ht =>
      hnow t (List.mem_append.mpr (Or.inl ht))
    unfold waitIfNeededStep at hstep
    split at hstep
    · rw [Option.some_inj] at hstep
      subst hstep
      unfold purgeWindow
      rw [List.filter_append, List.filter_append]
      have h1 : (purgeWindow windowMs m win).filter (fun t => now - t < windowMs)
          = purgeWindow windowMs now hist := by
        have := purgeWindow_purgeWindow windowMs m now win hmnow
        unfold purgeWindow at this ⊢
        rw [this]
        have := ih now hhist
        unfold purgeWindow at this
        exact this
      unfold purgeWindow at h1
      rw [h1]
    · exact absurd hstep (by simp)

/-- C1: for every reachable state, every trailing interval `(cutoff - W, cutoff]`
contains at most `maxRequests` recorded admissions. -/
theorem trace_sliding_window_bound {maxRequests windowMs : Nat} {hist win : List Nat}
    (h : RateLimiterTrace maxRequests windowMs hist win) (cutoff : Nat) :
    hist.countP (fun t => decide (cutoff - t < windowMs ∧ t ≤ cutoff)) ≤ maxRequests := by
  induction h with
  | init => simp
  | @step hist win win' m htr hmono hstep ih =>
    rw [List.countP_append]
    by_cases hm : cutoff - m < windowMs ∧ m ≤ cutoff
    · have hcount : hist.countP (fun t => decide (cutoff - t < windowMs ∧ t ≤ cutoff))
          ≤ hist.countP (fun t => decide (m - t < windowMs)) := by
        apply List.countP_mono_left
        intro t _ ht
        simp only [decide_eq_true_eq] at ht ⊢
        exact lt_of_le_of_lt (Nat.sub_le_sub_right hm.2 t) ht.1
      have hlen : hist.countP (fun t => decide (m - t < windowMs)) < maxRequests := by
        unfold waitIfNeededStep at hstep
        split at hstep
        · rename_i hlt
          have heq := trace_purge_eq htr m hmono
          rw [heq] at hlt
          unfold purgeWindow at hlt
          rwa [← List.countP_eq_length_filter] at hlt
        · exact absurd hstep (by simp)
      have hlt : hist.countP (fun t => decide (cutoff - t < windowMs ∧ t ≤ cutoff)) < maxRequests :=
        lt_of_le_of_lt hcount hlen
      have hone : [m].countP (fun t => decide (cutoff - t < windowMs ∧ t ≤ cutoff)) ≤ 1 := by
        have := List.countP_le_length
          (l := [m]) (p := fun t => decide (cutoff - t < windowMs ∧ t ≤ cutoff))
        simpa using this
      omega
    · have hzero : [m].countP (fun t => decide (cutoff - t < windowMs ∧ t ≤ cutoff)) = 0 := by
        simp [List.countP_cons, hm]
      omega

/-- Witness for C1: a concrete trace (limit 2, window 1000, two admissions
at time 0) satisfies the bound at cutoff 500. -/
theorem trace_sliding_window_bound_witness :
    [0, 0].countP (fun t => decide (500 - t < 1000 ∧ t ≤ 500)) ≤ 2 := by
  have h0 : RateLimiterTrace 2 1000 [] [] := RateLimiterTrace.init
  have h1 : RateLimiterTrace 2 1000 [0] [0] := by
    have h := @RateLimiterTrace.step 2 1000 [] [] [0] 0 h0
      (by intro t ht; cases ht) (by decide)
    simpa using h
  have h2 : RateLimiterTrace 2 1000 [0, 0] [0, 0] := by
    have h := @RateLimiterTrace.step 2 1000 [0] [0] [0, 0] 0 h1
      (by intro t ht; simp at ht; omega) (by decide)
    simpa using h
  exact trace_sliding_window_bound h2 500

/-- C9: with `maxRequests = 2`, `windowMs = 1000` and three `admit` calls at
t = 0: the first two record immediately at t = 0; the third finds the window
full, waits `1000 - (0 - 0) + 100 = 1100` ms, and records at t = 1100, which
is at least 1000 and within the 100 ms buffer above it. -/
theorem admission_scenario_three_calls :
    waitIfNeededRun 2 1000 1 [] 0 = some (0, [0]) ∧
    waitIfNeededRun 2 1000 1 [0] 0 = some (0, [0, 0]) ∧
    rateLimiterWait 1000 0 0 = 1100 ∧
    waitIfNeededRun 2 1000 2 [0, 0] 0 = some (1100, [1100]) ∧
    1000 ≤ 1100 ∧ 1100 ≤ 1000 + 100 := by
  refine ⟨by decide, by decide, by decide, ?_, by decide, by decide⟩
  decide

/-! ## Template suggestion (src/research-templates.ts, lines 249-271)

`suggestTemplate` lowercases the description, scores each domain by the
number of its keywords occurring as substrings (`String.includes`), and
keeps the first domain whose positive score strictly exceeds the best so
far. -/

/-- JavaScript `description.toLowerCase()` (the keyword table and inputs are
ASCII). -/
def toLowerCase (s : String) : String := ⟨s.data.map Char.toLower⟩

/-- `needle` occurs as a contiguous substring of `hay` (JavaScript
`hay.includes(needle)`), computed over the character lists. -/
def containsSub (needle : List Char) : List Char → Bool
  | [] => needle.isEmpty
  | c :: rest => needle.isPrefixOf (c :: rest) || containsSub needle rest

/-- JavaScript `hay.includes(needle)` on strings. -/
def includesB (hay needle : String) : Bool :=
  containsSub needle.data hay.data

/-- Number of keywords of one domain found in the (already lowercased)
description — the `score` of lines 261-263. -/
def domainScore (description : String) (ks : List String) : Nat :=
  (ks.filter (fun k => includesB (toLowerCase description) k)).length

/-- One iteration of the `for` loop of lines 260-268: replace the running
best match when this domain's score is positive and strictly larger. -/
def suggestStep (lowercaseDesc : String) (best : Option (String × Nat))
    (p : String × List String) : Option (String × Nat) :=
  if decide (0 < (p.2.filter (fun k => includesB lowercaseDesc k)).length) &&
     (match best with
      | none => true
      | some b => decide (b.2 < (p.2.filter (fun k => includesB lowercaseDesc k)).length))
  then some (p.1, (p.2.filter (fun k => includesB lowercaseDesc k)).length)
  else best

/-- `suggestTemplate` generalised over the keyword table (the table is plain
data inlined at lines 250-255). -/
def suggestTemplateWith (keywords : List (String × List String))
    (description : String) : Option String :=
  ((keywords.foldl (suggestStep (toLowerCase description)) none).map Prod.fst)

/-- The keyword table of lines 250-255. -/
def templateKeywords : List (String × List String) :=
  [ ("market_research",
      ["market", "customers", "competition", "opportunity", "demand", "growth"]),
    ("academic_research",
      ["literature", "research", "theory", "study", "academic", "papers"]),
    ("competitive_analysis",
      ["competitors", "competitive", "rivalry", "positioning", "strategy"]),
    ("technology_assessment",
      ["technology", "technical", "software", "platform", "tool", "system"]) ]

/-- `suggestTemplate` of lines 249-271. -/
def suggestTemplate (description : String) : Option String :=
  suggestTemplateWith templateKeywords description

/-- Greatest domain score over the table. -/
def maxScore (keywords : List (String × List String)) (description : String) : Nat :=
  (keywords.map (fun p => domainScore description p.2)).foldr max 0

/-- Modelled from the spec's words: the hint is the first-declared domain
whose keyword list has the greatest positive count of matched keywords, and
is absent when no keyword matches at all. -/
def argmaxHint (keywords : List (String × List String))
    (description : String) : Option String :=
  if maxScore keywords description = 0 then none
  else (keywords.find?
        (fun p => domainScore description p.2 == maxScore keywords description)).map
        Prod.fst

theorem domainScore_filter (description : String) (ks : List String) :
    (ks.filter (fun k => includesB (toLowerCase description) k)).length
      = domainScore description ks := rfl

theorem maxScore_cons (p : String × List String) (kw : List (String × List String))
    (description : String) :
    maxScore (p :: kw) description
      = max (domainScore description p.2) (maxScore kw description) := rfl

theorem suggestStep_some (description : String) (d : String) (s : Nat)
    (p : String × List String) :
    suggestStep (toLowerCase description) (some (d, s)) p
      = if s < domainScore description p.2
        then some (p.1, domainScore description p.2) else some (d, s) := by
  unfold suggestStep
  rw [domainScore_filter]
  by_cases h : s < domainScore description p.2
  · have h0 : 0 < domainScore description p.2 := Nat.lt_of_le_of_lt (Nat.zero_le s) h
    simp [h, h0]
  · by_cases h0 : 0 < domainScore description p.2 <;> simp [h, h0]

theorem suggestStep_none (description : String) (p : String × List String) :
    suggestStep (toLowerCase description) none p
      = if 0 < domainScore description p.2
        then some (p.1, domainScore description p.2) else none := by
  unfold suggestStep
  rw [domainScore_filter]
  by_cases h0 : 0 < domainScore description p.2 <;> simp [h0]

/-- The loop, started from a running best `(d, s)`, ends at `(d, s)` when no
remaining score beats `s`, and otherwise at the first domain achieving the
maximum remaining score. -/
theorem foldl_suggestStep_some (description : String) :
    ∀ (kw : List (String × List String)) (d : String) (s : Nat),
      kw.foldl (suggestStep (toLowerCase description)) (some (d, s))
        = if maxScore kw description ≤ s then some (d, s)
          else (kw.find?
            (fun p => domainScore description p.2 == maxScore kw description)).map
            (fun p => (p.1, maxScore kw description)) := by
  intro kw
  induction kw with
  | nil =>
    intro d s
    simp [maxScore]
  | cons p rest ih =>
    intro d s
    rw [List.foldl_cons, suggestStep_some, maxScore_cons]
    by_cases h : s < domainScore description p.2
    · rw [if_pos h, ih]
      have hns : ¬ max (domainScore description p.2) (maxScore rest description) ≤ s := by
        have := Nat.le_max_left (domainScore description p.2) (maxScore rest description)
        omega
      rw [if_neg hns]
      by_cases h2 : maxScore rest description ≤ domainScore description p.2
      · have hmax : max (domainScore description p.2) (maxScore rest description)
            = domainScore description p.2 := Nat.max_eq_left h2
        rw [if_pos h2, hmax, List.find?_cons]
        simp
      · have hlt : domainScore description p.2 < maxScore rest description := by omega
        have hmax : max (domainScore description p.2) (maxScore rest description)
            = maxScore rest description := Nat.max_eq_right (Nat.le_of_lt hlt)
        rw [if_neg h2, hmax, List.find?_cons]
        have hne : (domainScore description p.2 == maxScore rest description) = false := by
          simp [Nat.ne_of_lt hlt]
        rw [hne]
    · rw [if_neg h, ih]
      have hps : domainScore description p.2 ≤ s := by omega
      by_cases h2 : maxScore rest description ≤ s
      · have hle : max (domainScore description p.2) (maxScore rest description) ≤ s :=
          Nat.max_le.mpr ⟨hps, h2⟩
        rw [if_pos h2, if_pos hle]
      · have hlt : s < maxScore rest description := by omega
        have hnle : ¬ max (domainScore description p.2) (maxScore rest description) ≤ s := by
          have := Nat.le_max_right (domainScore description p.2) (maxScore rest description)
          omega
        have hmax : max (domainScore description p.2) (maxScore rest description)
            = maxScore rest description := Nat.max_eq_right (by omega)
        rw [if_neg h2, if_neg hnle, hmax, List.find?_cons]
        have hne : (domainScore description p.2 == maxScore rest description) = false := by
          have : domainScore description p.2 ≠ maxScore rest description := by omega
          simp [this]
        rw [hne]

/-- The loop started from no best match. -/
theorem foldl_suggestStep_none (description : String) :
    ∀ kw : List (String × List String),
      kw.foldl (suggestStep (toLowerCase description)) none
        = if maxScore kw description = 0 then none
          else (kw.find?
            (fun p => domainScore description p.2 == maxScore kw description)).map
            (fun p => (p.1, maxScore kw description)) := by
  intro kw
  induction kw with
  | nil => simp [maxScore]
  | cons p rest ih =>
    rw [List.foldl_cons, suggestStep_none, maxScore_cons]
    by_cases h : 0 < domainScore description p.2
    · rw [if_pos h, foldl_suggestStep_some]
      have hne : ¬ max (domainScore description p.2) (maxScore rest description) = 0 := by
        have := Nat.le_max_left (domainScore description p.2) (maxScore rest description)
        omega
      rw [if_neg hne]
      by_cases h2 : maxScore rest description ≤ domainScore description p.2
      · have hmax : max (domainScore description p.2) (maxScore rest description)
            = domainScore description p.2 := Nat.max_eq_left h2
        rw [if_pos h2, hmax, List.find?_cons]
        simp
      · have hlt : domainScore description p.2 < maxScore rest description := by omega
        have hmax : max (domainScore description p.2) (maxScore rest description)
            = maxScore rest description := Nat.max_eq_right (Nat.le_of_lt hlt)
        rw [if_neg h2, hmax, List.find?_cons]
        have hne2 : (domainScore description p.2 == maxScore rest description) = false := by
          simp [Nat.ne_of_lt hlt]
        rw [hne2]
    · have hz : domainScore description p.2 = 0 := by omega
      rw [if_neg h, ih]
      by_cases h2 : maxScore rest description = 0
      · have : max (domainScore description p.2) (maxScore rest description) = 0 := by
          rw [hz, h2]; simp
        rw [if_pos h2, if_pos this]
      · have hmax : max (domainScore description p.2) (maxScore rest description)
            = maxScore rest description := by
          rw [hz]; exact Nat.zero_max (maxScore rest description)
        have hne : ¬ max (domainScore description p.2) (maxScore rest description) = 0 := by
          rw [hmax]; exact h2
        rw [if_neg h2, if_neg hne, hmax, List.find?_cons]
        have hne2 : (domainScore description p.2 == maxScore rest description) = false := by
          rw [hz]; simp [Ne.symm h2]
        rw [hne2]

/-- The keyword table of the claim's concrete scenario. -/
def scenarioKeywords : List (String × List String) :=
  [ ("market_research", ["market", "demand"]),
    ("academic_research", ["literature", "study"]) ]

/-- C8 counterexample: in "literature review of solar panel recycling
studies" the keyword "study" is not a contiguous substring of "studies"
(JavaScript `includes` is an exact substring test), so the stipulated
academic keyword list scores 1, not the claimed 2. -/
theorem suggestTemplate_two_matches_cx :
    domainScore "literature review of solar panel recycling studies"
      ["literature", "study"] = 1 ∧
    domainScore "literature review of solar panel recycling studies"
      ["literature", "study"] ≠ 2 ∧
    includesB (toLowerCase "literature review of solar panel recycling studies")
      "study" = false ∧
    includesB (toLowerCase "literature review of solar panel recycling studies")
      "literature" = true := by
  refine ⟨by decide, by decide, by decide, by decide⟩

/-- C8 (amended): the suggested hint is the first-declared domain with the
greatest positive keyword count (absent when nothing matches), and the two
concrete scenarios with the stipulated keyword lists: no keyword of either
domain occurs in "research solar panel recycling" (hint absent), while
"literature review of solar panel recycling studies" matches one academic
keyword ("literature"; "study" is not a substring of "studies") against
zero market keywords, so the hint is academic_research. -/
theorem suggestTemplate_first_argmax :
    (∀ (kw : List (String × List String)) (description : String),
      suggestTemplateWith kw description = argmaxHint kw description) ∧
    (∀ description : String,
      suggestTemplate description = argmaxHint templateKeywords description) ∧
    suggestTemplateWith scenarioKeywords "research solar panel recycling" = none ∧
    suggestTemplateWith scenarioKeywords
      "literature review of solar panel recycling studies" = some "academic_research" ∧
    domainScore "literature review of solar panel recycling studies"
      ["literature", "study"] = 1 ∧
    domainScore "literature review of solar panel recycling studies"
      ["market", "demand"] = 0 ∧
    domainScore "research solar panel recycling" ["market", "demand"] = 0 ∧
    domainScore "research solar panel recycling" ["literature", "study"] = 0 := by
  have hgen : ∀ (kw : List (String × List String)) (description : String),
      suggestTemplateWith kw description = argmaxHint kw description := by
    intro kw description
    unfold suggestTemplateWith argmaxHint
    rw [foldl_suggestStep_none]
    by_cases h : maxScore kw description = 0
    · rw [if_pos h, if_pos h]; rfl
    · rw [if_neg h, if_neg h, Option.map_map]
      rfl
  refine ⟨hgen, fun description => hgen templateKeywords description,
    by decide, by decide, by decide, by decide, by decide, by decide⟩

/-! ## FlexibleResearchAgent (src/flexible-research-agent.ts)

`performResearch` issues one completion call for the research text, then
`parseResearchResults` issues a second (structuring) call and `JSON.parse`s
its output; an unparsable structuring output is absorbed into a degraded
fallback result.  The two completion-service responses are inputs of the
embedding (`Except`: the service may throw), as is the `JSON.parse`
outcome. -/

/-- How one research finding object is populated (`findings` is a free-form
JavaScript object in the source). -/
inductive FindingsVal where
  | parsed (obj : String)
  | rawOnly (raw : String)
  | rawSummary (raw : String) (summary : String)
deriving DecidableEq, Repr

/-- Successful `JSON.parse` of the structuring output (lines 142-147);
absent keys are `none`. -/
structure ParsedStructured where
  findings : Option String
  evidence : Option (List String)
  confidence : Option ℚ
  sources : Option (List String)
  metadata : List (String × String)
deriving DecidableEq, Repr

/-- `DimensionResults` (types.ts lines 135-142); `parseError` is the
`metadata.parseError` flag of line 173, `researchDepth` the line-157 tag. -/
structure DimensionResults where
  dimensionId : String
  findings : FindingsVal
  evidence : List String
  confidence : ℚ
  sources : List String
  parseError : Bool
  researchDepth : Option String
deriving DecidableEq, Repr

/-- JavaScript `x || d` on a number: `0` is falsy (line 153). -/
def jsNumOr (x : Option ℚ) (d : ℚ) : ℚ :=
  match x with
  | some v => if v = 0 then d else v
  | none => d

/-- `parseResearchResults` (lines 114-178) after the structuring completion
returned `structOut`; `parseJson` models `JSON.parse` over free-form text
(`none` = the catch branch). -/
def parseResearchResults (parseJson : String → Option ParsedStructured)
    (dimensionId : String) (responseText structOut : String) : DimensionResults :=
  match parseJson structOut with
  | some s =>
    { dimensionId := dimensionId
      findings := match s.findings with
        | some o => .parsed o
        | none => .rawOnly responseText
      evidence := s.evidence.getD []
      confidence := jsNumOr s.confidence 0.7
      sources := s.sources.getD []
      parseError := false
      researchDepth := some "comprehensive" }
  | none =>
    { dimensionId := dimensionId
      findings := .rawSummary responseText (responseText.take 500 ++ "...")
      evidence := []
      confidence := 0.6
      sources := []
      parseError := true
      researchDepth := none }

/-- `performResearch` (lines 19-50): the first completion call produces the
research text, the second the structuring output; a thrown service error at
either call propagates to the caller. -/
def performResearch (parseJson : String → Option ParsedStructured)
    (dimensionId : String) (researchOut structOut : Except String String) :
    Except String DimensionResults :=
  match researchOut with
  | .error e => .error e
  | .ok text =>
    match structOut with
    | .error e => .error e
    | .ok s => .ok (parseResearchResults parseJson dimensionId text s)

/-- Number of completion-service calls one unit issues: the first
`messages.create` is always issued; the structuring call only after the
first returned. -/
def performResearchCalls (researchOut : Except String String) : Nat :=
  match researchOut with
  | .error _ => 1
  | .ok _ => 2

/-! ## FlexibleResearchManager batch execution
(src/flexible-research-manager.ts, lines 177-230) -/

inductive AgentStatus where
  | pending | running | completed | failed
deriving DecidableEq, Repr

/-- `FlexibleSubAgent` (types.ts lines 127-133). -/
structure SubAgent where
  id : String
  dimensionId : String
  status : AgentStatus
  results : Option DimensionResults
deriving DecidableEq, Repr

/-- The `try`/`catch` body shared by both loops (lines 187-201 and 215-229):
run the research for one agent, record the result and `completed`, or absorb
the thrown error into `failed`. -/
def execOne (research : SubAgent → Except String DimensionResults)
    (a : SubAgent) : SubAgent :=
  match research a with
  | .ok r => { a with status := .completed, results := some r }
  | .error _ => { a with status := .failed }

/-- `runSequentialResearch` (lines 211-230): strictly in order, one at a
time. -/
def runSequentialResearch (research : SubAgent → Except String DimensionResults)
    (agents : List SubAgent) : List SubAgent :=
  agents.map (execOne research)

/-- The slicing of line 183-184: consecutive slices of `maxConcurrent`
agents (`slice(i, i + maxConcurrent)` as `i` advances by `maxConcurrent`). -/
def sliceList (maxConcurrent : Nat) : List SubAgent → List (List SubAgent)
  | [] => []
  | a :: rest =>
    (a :: rest.take (maxConcurrent - 1)) :: sliceList maxConcurrent (rest.drop (maxConcurrent - 1))
termination_by l => l.length
decreasing_by simp [List.length_drop]; omega

/-- `runParallelResearch` (lines 177-209): the slices are processed in
order; inside a slice every agent goes through the same `try`/`catch` body,
and the per-agent outcome is a function of that agent alone, so the
concurrent `Promise.all` is order-insensitive. -/
def runParallelResearch (research : SubAgent → Except String DimensionResults)
    (maxConcurrent : Nat) (agents : List SubAgent) : List SubAgent :=
  (sliceList maxConcurrent agents).foldl (fun acc batch => acc ++ batch.map (execOne research)) []

/-- Completion-service calls issued for one agent under a per-agent service
behaviour `svc` (first component: the research call's outcome). -/
def unitCalls (svc : SubAgent → Except String String × Except String String)
    (a : SubAgent) : Nat :=
  performResearchCalls (svc a).1

/-- Total external calls in sequential mode. -/
def sequentialTotalCalls (svc : SubAgent → Except String String × Except String String)
    (agents : List SubAgent) : Nat :=
  (agents.map (unitCalls svc)).sum

/-- Total external calls in concurrent-bounded mode, accumulated slice by
slice. -/
def parallelTotalCalls (svc : SubAgent → Except String String × Except String String)
    (maxConcurrent : Nat) (agents : List SubAgent) : Nat :=
  (sliceList maxConcurrent agents).foldl
    (fun acc batch => acc + (batch.map (unitCalls svc)).sum) 0

theorem sliceList_cons (maxConcurrent : Nat) (a : SubAgent) (rest : List SubAgent) :
    sliceList maxConcurrent (a :: rest)
      = (a :: rest.take (maxConcurrent - 1))
        :: sliceList maxConcurrent (rest.drop (maxConcurrent - 1)) := by
  rw [sliceList]

theorem sliceList_foldl_append {β : Type} (f : SubAgent → β) (maxConcurrent : Nat) :
    ∀ (n : Nat) (l : List SubAgent), l.length ≤ n →
      ∀ acc : List β,
        (sliceList maxConcurrent l).foldl (fun acc batch => acc ++ batch.map f) acc
          = acc ++ l.map f := by
  intro n
  induction n with
  | zero =>
    intro l hl acc
    have : l = [] := List.eq_nil_of_length_eq_zero (Nat.le_zero.mp hl)
    subst this
    simp [sliceList]
  | succ n ih =>
    intro l hl acc
    match l with
    | [] => simp [sliceList]
    | a :: rest =>
      rw [sliceList_cons, List.foldl_cons]
      rw [ih (rest.drop (maxConcurrent - 1)) (by simp at hl ⊢; omega)]
      have hcat : (a :: rest.take (maxConcurrent - 1)) ++ rest.drop (maxConcurrent - 1)
          = a :: rest := by
        rw [List.cons_append, List.take_append_drop]
      rw [List.append_assoc, ← List.map_append, hcat]

theorem sliceList_foldl_sum (g : SubAgent → Nat) (maxConcurrent : Nat) :
    ∀ (n : Nat) (l : List SubAgent), l.length ≤ n →
      ∀ acc : Nat,
        (sliceList maxConcurrent l).foldl (fun acc batch => acc + (batch.map g).sum) acc
          = acc + (l.map g).sum := by
  intro n
  induction n with
  | zero =>
    intro l hl acc
    have : l = [] := List.eq_nil_of_length_eq_zero (Nat.le_zero.mp hl)
    subst this
    simp [sliceList]
  | succ n ih =>
    intro l hl acc
    match l with
    | [] => simp [sliceList]
    | a :: rest =>
      rw [sliceList_cons, List.foldl_cons]
      rw [ih (rest.drop (maxConcurrent - 1)) (by simp at hl ⊢; omega)]
      have : (a :: rest.take (maxConcurrent - 1)) ++ rest.drop (maxConcurrent - 1)
          = a :: rest := by
        rw [List.cons_append, List.take_append_drop]
      calc acc + ((a :: rest.take (maxConcurrent - 1)).map g).sum
            + ((rest.drop (maxConcurrent - 1)).map g).sum
          = acc + (((a :: rest.take (maxConcurrent - 1))
              ++ rest.drop (maxConcurrent - 1)).map g).sum := by
            rw [List.map_append, List.sum_append]; omega
        _ = acc + ((a :: rest).map g).sum := by rw [this]

theorem sliceList_nil (maxConcurrent : Nat) : sliceList maxConcurrent [] = [] := by
  rw [sliceList]

theorem sliceList_count (maxConcurrent : Nat) (hm : 1 ≤ maxConcurrent) :
    ∀ (n : Nat) (l : List SubAgent), l.length ≤ n →
      (sliceList maxConcurrent l).length = (l.length + maxConcurrent - 1) / maxConcurrent := by
  intro n
  induction n with
  | zero =>
    intro l hl
    have : l = [] := List.eq_nil_of_length_eq_zero (Nat.le_zero.mp hl)
    subst this
    rw [sliceList_nil]
    have h0 : (([] : List SubAgent).length + maxConcurrent - 1) / maxConcurrent = 0 :=
      Nat.div_eq_of_lt (by simp; omega)
    rw [h0]
    rfl
  | succ n ih =>
    intro l hl
    match l with
    | [] =>
      rw [sliceList_nil]
      have h0 : (([] : List SubAgent).length + maxConcurrent - 1) / maxConcurrent = 0 :=
        Nat.div_eq_of_lt (by simp; omega)
      rw [h0]
      rfl
    | a :: rest =>
      rw [sliceList_cons, List.length_cons,
        ih (rest.drop (maxConcurrent - 1)) (by simp at hl ⊢; omega)]
      have hdrop : (rest.drop (maxConcurrent - 1)).length
          = rest.length - (maxConcurrent - 1) := by simp
      have hnum : rest.length + 1 + maxConcurrent - 1 = rest.length + maxConcurrent := by
        omega
      rw [hdrop, List.length_cons, hnum,
        Nat.add_div_right rest.length (show 0 < maxConcurrent by omega)]
      rcases Nat.lt_or_ge rest.length maxConcurrent with hlt | hge
      · have h0 : rest.length - (maxConcurrent - 1) = 0 := by omega
        rw [h0]
        have hz1 : (0 + maxConcurrent - 1) / maxConcurrent = 0 :=
          Nat.div_eq_of_lt (by omega)
        have hz2 : rest.length / maxConcurrent = 0 := Nat.div_eq_of_lt hlt
        rw [hz1, hz2]
      · have h1 : rest.length - (maxConcurrent - 1) + maxConcurrent - 1
            = rest.length := by omega
        rw [h1]

/-- Both execution modes produce the same per-agent map of the shared
`try`/`catch` body. -/
theorem runParallelResearch_eq_map
    (research : SubAgent → Except String DimensionResults)
    (maxConcurrent : Nat) (agents : List SubAgent) :
    runParallelResearch research maxConcurrent agents
      = agents.map (execOne research) := by
  unfold runParallelResearch
  have h := sliceList_foldl_append (execOne research) maxConcurrent
    agents.length agents (Nat.le_refl _) []
  rw [h, List.nil_append]

/-- C2: in either mode every unit of the batch reaches a terminal status
(`completed` or `failed`), the whole batch is returned (length preserved),
and the outcome of the unit at position `j` depends only on what the
completion service does for that unit: replacing the service behaviour by
one that agrees on unit `j` (for instance, one that makes a different unit
`i ≠ j` fail) leaves unit `j`'s terminal result unchanged. -/
theorem batch_failure_isolation
    (research research' : SubAgent → Except String DimensionResults)
    (maxConcurrent : Nat) (agents : List SubAgent) (j : Nat)
    (hagree : ∀ a, agents.get? j = some a → research a = research' a) :
    (∀ a ∈ runSequentialResearch research agents,
      a.status = .completed ∨ a.status = .failed) ∧
    (∀ a ∈ runParallelResearch research maxConcurrent agents,
      a.status = .completed ∨ a.status = .failed) ∧
    (runSequentialResearch research agents).length = agents.length ∧
    (runParallelResearch research maxConcurrent agents).length = agents.length ∧
    (runSequentialResearch research agents).get? j
      = (runSequentialResearch research' agents).get? j ∧
    (runParallelResearch research maxConcurrent agents).get? j
      = (runParallelResearch research' maxConcurrent agents).get? j := by
  have hterm : ∀ (r : SubAgent → Except String DimensionResults) (a : SubAgent),
      (execOne r a).status = .completed ∨ (execOne r a).status = .failed := by
    intro r a
    unfold execOne
    cases r a <;> simp
  have hget : ∀ r : SubAgent → Except String DimensionResults,
      (runSequentialResearch r agents).get? j = (agents.get? j).map (execOne r) := by
    intro r
    unfold runSequentialResearch
    exact List.get?_map (execOne r) agents j
  have hgeteq : (agents.get? j).map (execOne research)
      = (agents.get? j).map (execOne research') := by
    match hj : agents.get? j with
    | none => rfl
    | some a =>
      have h := hagree a hj
      show some (execOne research a) = some (execOne research' a)
      unfold execOne
      rw [h]
  refine ⟨?_, ?_, ?_, ?_, ?_, ?_⟩
  · intro a ha
    rcases List.mem_map.mp ha with ⟨b, _, hb⟩
    rw [← hb]; exact hterm research b
  · intro a ha
    rw [runParallelResearch_eq_map] at ha
    rcases List.mem_map.mp ha with ⟨b, _, hb⟩
    rw [← hb]; exact hterm research b
  · exact List.length_map agents (execOne research)
  · rw [runParallelResearch_eq_map]
    exact List.length_map agents (execOne research)
  · rw [hget research, hget research', hgeteq]
  · rw [runParallelResearch_eq_map, runParallelResearch_eq_map,
      List.get?_map, List.get?_map, hgeteq]

/-- A concrete parsed structuring payload used by the witnesses. -/
def sampleParsed : ParsedStructured :=
  { findings := some "f", evidence := some ["e"], confidence := some 0.9
    sources := some ["s"], metadata := [] }

/-- A concrete pending agent used by the witnesses. -/
def sampleAgent : SubAgent :=
  { id := "a1", dimensionId := "dimension_1", status := .pending, results := none }

/-- A second concrete pending agent used by the witnesses. -/
def sampleAgent2 : SubAgent :=
  { id := "a2", dimensionId := "dimension_2", status := .pending, results := none }

/-- Witness for C2: two agents; the alternative service behaviour makes
agent 0 fail while agreeing on agent 1; agent 1's outcome at position 1 is
unchanged and every unit is terminal. -/
theorem batch_failure_isolation_witness :
    (∀ a ∈ runSequentialResearch (fun _ => .error "boom") [sampleAgent, sampleAgent2],
      a.status = .completed ∨ a.status = .failed) ∧
    (∀ a ∈ runParallelResearch (fun _ => .error "boom") 1 [sampleAgent, sampleAgent2],
      a.status = .completed ∨ a.status = .failed) ∧
    (runSequentialResearch (fun _ => .error "boom") [sampleAgent, sampleAgent2]).length = 2 ∧
    (runParallelResearch (fun _ => .error "boom") 1 [sampleAgent, sampleAgent2]).length = 2 ∧
    (runSequentialResearch (fun _ => .error "boom") [sampleAgent, sampleAgent2]).get? 1
      = (runSequentialResearch
          (fun a => if a.id = "a1" then .ok (parseResearchResults (fun _ => none) "d" "t" "s")
                    else .error "boom") [sampleAgent, sampleAgent2]).get? 1
      ∧
    (runParallelResearch (fun _ => .error "boom") 1 [sampleAgent, sampleAgent2]).get? 1
      = (runParallelResearch
          (fun a => if a.id = "a1" then .ok (parseResearchResults (fun _ => none) "d" "t" "s")
                    else .error "boom") 1 [sampleAgent, sampleAgent2]).get? 1 := by
  exact batch_failure_isolation (fun _ => .error "boom")
    (fun a => if a.id = "a1" then .ok (parseResearchResults (fun _ => none) "d" "t" "s")
              else .error "boom")
    1 [sampleAgent, sampleAgent2] 1
    (by
      intro a ha
      have h2 : ([sampleAgent, sampleAgent2].get? 1) = some sampleAgent2 := rfl
      rw [h2, Option.some_inj] at ha
      subst ha
      rfl)

/-- C7: with concurrency cap `m ≥ 1` the concurrent-bounded mode cuts the
batch into exactly `ceil(k / m)` consecutive slices of size at most `m`
whose concatenation is the batch in order, and its total number of external
completion-service calls equals the sequential mode's total. -/
theorem batch_call_parity
    (svc : SubAgent → Except String String × Except String String)
    (maxConcurrent : Nat) (agents : List SubAgent)
    (hm : 1 ≤ maxConcurrent) :
    parallelTotalCalls svc maxConcurrent agents = sequentialTotalCalls svc agents ∧
    (sliceList maxConcurrent agents).length
      = (agents.length + maxConcurrent - 1) / maxConcurrent ∧
    (∀ s ∈ sliceList maxConcurrent agents, s.length ≤ maxConcurrent) ∧
    (sliceList maxConcurrent agents).foldl
      (fun acc batch => acc ++ batch.map id) [] = agents := by
  refine ⟨?_, ?_, ?_, ?_⟩
  · unfold parallelTotalCalls sequentialTotalCalls
    have h := sliceList_foldl_sum (unitCalls svc) maxConcurrent
      agents.length agents (Nat.le_refl _) 0
    rw [h, Nat.zero_add]
  · exact sliceList_count maxConcurrent hm agents.length agents (Nat.le_refl _)
  · have hlen : ∀ (n : Nat) (l : List SubAgent), l.length ≤ n →
        ∀ s ∈ sliceList maxConcurrent l, s.length ≤ maxConcurrent := by
      intro n
      induction n with
      | zero =>
        intro l hl s hs
        have : l = [] := List.eq_nil_of_length_eq_zero (Nat.le_zero.mp hl)
        subst this
        rw [sliceList_nil] at hs
        exact absurd hs (List.not_mem_nil s)
      | succ n ih =>
        intro l hl s hs
        match l with
        | [] =>
          rw [sliceList_nil] at hs
          exact absurd hs (List.not_mem_nil s)
        | a :: rest =>
          rw [sliceList_cons] at hs
          rcases List.mem_cons.mp hs with h1 | h1
          · subst h1
            have := List.length_take_le (maxConcurrent - 1) rest
            simp only [List.length_cons]
            omega
          · exact ih (rest.drop (maxConcurrent - 1)) (by simp at hl ⊢; omega) s h1
    exact hlen agents.length agents (Nat.le_refl _)
  · have h := sliceList_foldl_append (id : SubAgent → SubAgent) maxConcurrent
      agents.length agents (Nat.le_refl _) []
    simpa using h

/-- Witness for C7: three agents with cap 2: two slices, six external calls
in both modes when every first-stage call succeeds. -/
theorem batch_call_parity_witness :
    parallelTotalCalls (fun _ => (.ok "t", .ok "s")) 2 [sampleAgent, sampleAgent2, sampleAgent]
      = sequentialTotalCalls (fun _ => (.ok "t", .ok "s"))
          [sampleAgent, sampleAgent2, sampleAgent] ∧
    (sliceList 2 [sampleAgent, sampleAgent2, sampleAgent]).length = 2 := by
  have h := batch_call_parity (fun _ => (.ok "t", .ok "s")) 2
    [sampleAgent, sampleAgent2, sampleAgent] (by decide)
  exact ⟨h.1, h.2.1⟩

/-- C6: when the structuring output cannot be parsed, the unit still
completes: `performResearch` returns a result (no error), the raw response
text is retained (with its 500-character summary), the confidence is 0.6 —
strictly below the 0.7 default that parseable output without an explicit
confidence receives — and the `parseError` metadata flag is set; running the
unit through the orchestrator's body marks it `completed`. -/
theorem parse_failure_degraded
    (parseJson : String → Option ParsedStructured)
    (dimensionId responseText structOut : String) (a : SubAgent)
    (hparse : parseJson structOut = none) :
    performResearch parseJson dimensionId (.ok responseText) (.ok structOut)
      = .ok (parseResearchResults parseJson dimensionId responseText structOut) ∧
    (parseResearchResults parseJson dimensionId responseText structOut).findings
      = .rawSummary responseText (responseText.take 500 ++ "...") ∧
    (parseResearchResults parseJson dimensionId responseText structOut).confidence = 0.6 ∧
    (∀ p s', parseJson s' = some p → p.confidence = none →
      (parseResearchResults parseJson dimensionId responseText s').confidence = 0.7) ∧
    (parseResearchResults parseJson dimensionId responseText structOut).confidence
      < (0.7 : ℚ) ∧
    (parseResearchResults parseJson dimensionId responseText structOut).parseError = true ∧
    (execOne (fun _ => performResearch parseJson dimensionId (.ok responseText) (.ok structOut))
      a).status = .completed := by
  refine ⟨rfl, ?_, ?_, ?_, ?_, ?_, ?_⟩
  · unfold parseResearchResults
    rw [hparse]
  · unfold parseResearchResults
    rw [hparse]
  · intro p s' hp hc
    unfold parseResearchResults
    rw [hp]
    simp [jsNumOr, hc]
  · unfold parseResearchResults
    rw [hparse]
    norm_num
  · unfold parseResearchResults
    rw [hparse]
  · have hres : performResearch parseJson dimensionId (.ok responseText) (.ok structOut)
        = Except.ok (parseResearchResults parseJson dimensionId responseText structOut) := rfl
    unfold execOne
    simp [hres]

/-- Witness for C6: a concrete unparsable structuring output. -/
theorem parse_failure_degraded_witness :
    performResearch (fun _ => none) "dimension_1" (.ok "raw analysis") (.ok "not json")
      = .ok (parseResearchResults (fun _ => none) "dimension_1" "raw analysis" "not json") ∧
    (parseResearchResults (fun _ => none) "dimension_1" "raw analysis" "not json").confidence
      < (0.7 : ℚ) ∧
    (parseResearchResults (fun _ => none) "dimension_1" "raw analysis" "not json").parseError
      = true ∧
    (execOne (fun _ =>
        performResearch (fun _ => none) "dimension_1" (.ok "raw analysis") (.ok "not json"))
      sampleAgent).status = .completed := by
  have h := parse_failure_degraded (fun _ => none) "dimension_1" "raw analysis" "not json"
    sampleAgent rfl
  exact ⟨h.1, h.2.2.2.2.1, h.2.2.2.2.2.1, h.2.2.2.2.2.2⟩

/-! ## ConfigurationWizard (src/configuration-wizard.ts)

Sessions live in a `Map<string, ConversationState>`; `continueConfiguration`
appends turns, issues two completion calls (free-form response, structured
extraction), merges the parsed extraction into the snapshot, and marks the
session `completed` on a positive sufficiency signal;
`generateResearchPlan` assembles a `ResearchConfig` with defaults.  The
completion-service outputs and the `JSON.parse` outcomes are inputs of the
embedding. -/

/-- `ResearchDimension` (types.ts lines 71-78). -/
structure ResearchDimension where
  id : String
  name : String
  description : String
  evaluationCriteria : List String
  dataPoints : List String
  weight : Option ℚ
deriving DecidableEq, Repr

/-- `QualityCheckConfig` (types.ts lines 94-98). -/
structure QualityCheckConfig where
  type : String
  criteria : List String
  threshold : ℚ
deriving DecidableEq, Repr

/-- `ResearchConfig.context` (types.ts lines 83-88). -/
structure ConfigContext where
  domain : String
  audience : List String
  perspective : String
  constraints : Option (List (String × String))
deriving DecidableEq, Repr

/-- The accumulating configuration snapshot `extractedConfig` (a
`Partial<ResearchConfig>`, always fully initialised by
`startConfiguration`, lines 40-50). -/
structure ExtractedConfig where
  topic : String
  context : ConfigContext
  dimensions : List ResearchDimension
  outputFormat : String
  qualityChecks : List QualityCheckConfig
deriving DecidableEq, Repr

/-- `ResearchConfig` (types.ts lines 80-92). -/
structure ResearchConfig where
  id : String
  topic : String
  context : ConfigContext
  dimensions : List ResearchDimension
  outputFormat : String
  qualityChecks : List QualityCheckConfig
deriving DecidableEq, Repr

inductive Role where
  | user | assistant
deriving DecidableEq, Repr

/-- `ConversationTurn` (types.ts lines 100-105); the `Date` timestamp is
not modelled. -/
structure ConversationTurn where
  role : Role
  content : String
deriving DecidableEq, Repr

inductive SessionStatus where
  | active | completed | abandoned
deriving DecidableEq, Repr

/-- `ConversationState` (types.ts lines 107-114). -/
structure ConversationState where
  sessionId : String
  turns : List ConversationTurn
  extractedConfig : ExtractedConfig
  clarificationNeeded : List String
  suggestedTemplate : Option String
  status : SessionStatus
deriving DecidableEq, Repr

/-- The wizard's `conversations` map, as an association list. -/
abbrev WizState := List (String × ConversationState)

def lookupSession (w : WizState) (sessionId : String) : Option ConversationState :=
  (w.find? (fun p => p.1 == sessionId)).map Prod.snd

/-- `Map.set`: replace the entry with this key, or append it. -/
def setSession : WizState → String → ConversationState → WizState
  | [], sessionId, st => [(sessionId, st)]
  | p :: rest, sessionId, st =>
    if p.1 = sessionId then (sessionId, st) :: rest else p :: setSession rest sessionId st

theorem lookupSession_setSession_self (w : WizState) (sessionId : String)
    (st : ConversationState) :
    lookupSession (setSession w sessionId st) sessionId = some st := by
  induction w with
  | nil => simp [setSession, lookupSession, List.find?]
  | cons p rest ih =>
    unfold setSession
    by_cases h : p.1 = sessionId
    · rw [if_pos h]
      simp [lookupSession, List.find?]
    · rw [if_neg h]
      unfold lookupSession
      rw [List.find?_cons]
      have hb : (p.1 == sessionId) = false := by
        simp [h]
      rw [hb]
      exact ih

/-- `startConfiguration` (lines 25-102): the session created for the
initial description, after the clarifying `response` came back from the
completion service.  The snapshot's domain is the suggested one or
`"custom"` (the keyword-derived domains are never empty strings, so the
JavaScript `|| 'custom'` is modelled by `getD`). -/
def startConfiguration (sessionId initialDescription response : String) :
    ConversationState :=
  { sessionId := sessionId
    turns := [{ role := .user, content := initialDescription },
              { role := .assistant, content := response }]
    extractedConfig :=
      { topic := initialDescription
        context := { domain := (suggestTemplate initialDescription).getD "custom"
                     audience := []
                     perspective := ""
                     constraints := none }
        dimensions := []
        outputFormat := "synthesis"
        qualityChecks := [] }
    clarificationNeeded := []
    suggestedTemplate := suggestTemplate initialDescription
    status := .active }

/-- Successful `JSON.parse` of the extraction output (lines 164-190);
absent keys are `none`.  The prompt asks for a `dimensions` array as well,
but lines 193-207 never read it. -/
structure ExtractedJson where
  domain : Option String
  audience : Option (List String)
  perspective : Option String
  dimensions : Option (List String)
  outputFormat : Option String
  constraints : Option (List (String × String))
  isComplete : Option Bool
deriving DecidableEq, Repr

/-- The update block of lines 193-207.  Every guard is a JavaScript
truthiness test: `if (extractedJson.domain)` skips the empty string,
`if (extractedJson.audience?.length)` skips the empty array, a constraints
object is always truthy. -/
def applyExtraction (cfg : ExtractedConfig) (ej : ExtractedJson) : ExtractedConfig :=
  { cfg with
    context :=
      { domain := match ej.domain with
          | some d => if d = "" then cfg.context.domain else d
          | none => cfg.context.domain
        audience := match ej.audience with
          | some l => if l.isEmpty then cfg.context.audience else l
          | none => cfg.context.audience
        perspective := match ej.perspective with
          | some s => if s = "" then cfg.context.perspective else s
          | none => cfg.context.perspective
        constraints := match ej.constraints with
          | some c => some c
          | none => cfg.context.constraints }
    outputFormat := match ej.outputFormat with
      | some s => if s = "" then cfg.outputFormat else s
      | none => cfg.outputFormat }

/-- The value returned by `continueConfiguration` (lines 104-108). -/
structure ContinueOutcome where
  response : String
  configComplete : Bool
  extractedConfig : ExtractedConfig
deriving DecidableEq, Repr

/-- `continueConfiguration` (lines 104-226).  Inputs: the two
completion-service outcomes (the free-form response and the extraction
text; `Except` because either call may throw) and the `JSON.parse` model.
Returns the result, the updated registry, and the number of
completion-service calls issued. -/
def continueConfiguration (w : WizState) (sessionId userResponse : String)
    (svcResponse svcExtract : Except String String)
    (parseExtract : String → Option ExtractedJson) :
    Except String ContinueOutcome × WizState × Nat :=
  match lookupSession w sessionId with
  | none => (.error "Invalid or expired session", w, 0)
  | some st =>
    if st.status ≠ .active then (.error "Invalid or expired session", w, 0)
    else
      match svcResponse with
      | .error e =>
        (.error e,
         setSession w sessionId
           { st with turns := st.turns ++ [{ role := .user, content := userResponse }] },
         1)
      | .ok response =>
        let st2 : ConversationState :=
          { st with turns := st.turns
              ++ [{ role := .user, content := userResponse },
                  { role := .assistant, content := response }] }
        match svcExtract with
        | .error e => (.error e, setSession w sessionId st2, 2)
        | .ok extractText =>
          match parseExtract extractText with
          | none =>
            (.ok { response := response, configComplete := false
                   extractedConfig := st2.extractedConfig },
             setSession w sessionId st2, 2)
          | some ej =>
            (.ok { response := response, configComplete := ej.isComplete.getD false
                   extractedConfig := applyExtraction st2.extractedConfig ej },
             setSession w sessionId
               { st2 with
                  extractedConfig := applyExtraction st2.extractedConfig ej
                  status := if ej.isComplete.getD false then .completed else st2.status },
             2)

/-! ## Research templates (src/research-templates.ts, lines 3-247) -/

/-- `ResearchTemplate` (types.ts lines 116-125). -/
structure ResearchTemplate where
  id : String
  name : String
  domain : String
  description : String
  defaultDimensions : List ResearchDimension
  defaultAudience : List String
  defaultQualityChecks : List QualityCheckConfig
  exampleQuestions : List String
deriving DecidableEq, Repr

/-- The `researchTemplates` record, in declaration order. -/
def researchTemplates : List (String × ResearchTemplate) :=
  [ ("market_research",
     { id := "market_research"
       name := "Market Research"
       domain := "market_research"
       description := "Comprehensive market analysis for products, services, or technologies"
       defaultDimensions :=
         [ { id := "market_size", name := "Market Size & Growth"
             description := "Current market size, growth rate, and future projections"
             evaluationCriteria := ["Total addressable market", "Growth rate", "Market maturity"]
             dataPoints := ["Market value", "CAGR", "Key drivers", "Market segments"]
             weight := some 0.2 },
           { id := "competitive_landscape", name := "Competitive Landscape"
             description := "Key players, market share, and competitive dynamics"
             evaluationCriteria := ["Number of competitors", "Market concentration", "Competitive intensity"]
             dataPoints := ["Major players", "Market share", "Competitive advantages", "Entry barriers"]
             weight := some 0.25 },
           { id := "customer_analysis", name := "Customer Analysis"
             description := "Target customers, needs, and buying behavior"
             evaluationCriteria := ["Customer segments", "Pain points", "Willingness to pay"]
             dataPoints := ["Demographics", "Psychographics", "Buying process", "Decision criteria"]
             weight := some 0.25 },
           { id := "market_trends", name := "Market Trends & Opportunities"
             description := "Emerging trends, opportunities, and threats"
             evaluationCriteria := ["Trend strength", "Opportunity size", "Risk factors"]
             dataPoints := ["Technology trends", "Regulatory changes", "Social shifts", "Economic factors"]
             weight := some 0.3 } ]
       defaultAudience := ["investors", "executives", "product_managers"]
       defaultQualityChecks :=
         [ { type := "completeness"
             criteria := ["All dimensions covered", "Data recency", "Geographic coverage"]
             threshold := 0.8 },
           { type := "accuracy"
             criteria := ["Source credibility", "Data consistency", "Methodology soundness"]
             threshold := 0.85 } ]
       exampleQuestions :=
         [ "What is the target market for this product/service?",
           "What time period should the analysis cover?",
           "Which geographic regions are most important?",
           "Are there specific competitors you want to focus on?" ] }),
    ("academic_research",
     { id := "academic_research"
       name := "Academic Literature Review"
       domain := "academic_research"
       description := "Systematic review of academic literature on a specific topic"
       defaultDimensions :=
         [ { id := "theoretical_frameworks", name := "Theoretical Frameworks"
             description := "Key theories, models, and conceptual frameworks"
             evaluationCriteria := ["Framework relevance", "Theoretical evolution", "Framework adoption"]
             dataPoints := ["Core theories", "Key authors", "Framework applications", "Theoretical gaps"]
             weight := some 0.25 },
           { id := "methodology_review", name := "Research Methodologies"
             description := "Common research methods and approaches"
             evaluationCriteria := ["Method appropriateness", "Rigor", "Innovation"]
             dataPoints := ["Quantitative methods", "Qualitative approaches", "Mixed methods", "Sampling strategies"]
             weight := some 0.2 },
           { id := "key_findings", name := "Key Research Findings"
             description := "Major discoveries and empirical results"
             evaluationCriteria := ["Finding consistency", "Evidence strength", "Practical significance"]
             dataPoints := ["Consensus findings", "Controversial results", "Meta-analyses", "Replications"]
             weight := some 0.3 },
           { id := "research_gaps", name := "Research Gaps & Future Directions"
             description := "Identified gaps and opportunities for future research"
             evaluationCriteria := ["Gap significance", "Feasibility", "Impact potential"]
             dataPoints := ["Methodological gaps", "Theoretical gaps", "Empirical gaps", "Proposed directions"]
             weight := some 0.25 } ]
       defaultAudience := ["researchers", "academics", "graduate_students"]
       defaultQualityChecks :=
         [ { type := "completeness"
             criteria := ["Literature coverage", "Time span adequacy", "Source diversity"]
             threshold := 0.85 },
           { type := "bias"
             criteria := ["Publication bias", "Geographic bias", "Methodological bias"]
             threshold := 0.8 } ]
       exampleQuestions :=
         [ "What specific aspect of the topic interests you most?",
           "What time period should the literature review cover?",
           "Are there specific journals or conferences to prioritize?",
           "Do you need a theoretical or empirical focus?" ] }),
    ("competitive_analysis",
     { id := "competitive_analysis"
       name := "Competitive Analysis"
       domain := "competitive_analysis"
       description := "In-depth analysis of competitive landscape and positioning"
       defaultDimensions :=
         [ { id := "competitor_profiles", name := "Competitor Profiles"
             description := "Detailed analysis of key competitors"
             evaluationCriteria := ["Market position", "Financial strength", "Strategic focus"]
             dataPoints := ["Company overview", "Products/services", "Market share", "Key metrics"]
             weight := some 0.2 },
           { id := "competitive_positioning", name := "Competitive Positioning"
             description := "Relative strengths, weaknesses, and market positioning"
             evaluationCriteria := ["Differentiation", "Value proposition", "Brand strength"]
             dataPoints := ["USPs", "Pricing strategy", "Target segments", "Brand perception"]
             weight := some 0.25 },
           { id := "strategic_analysis", name := "Strategic Analysis"
             description := "Competitive strategies and future moves"
             evaluationCriteria := ["Strategy clarity", "Execution capability", "Innovation potential"]
             dataPoints := ["Growth strategies", "R&D focus", "Partnership strategies", "M&A activity"]
             weight := some 0.3 },
           { id := "competitive_dynamics", name := "Competitive Dynamics"
             description := "Market dynamics and competitive responses"
             evaluationCriteria := ["Market stability", "Competitive intensity", "Disruption risk"]
             dataPoints := ["Competitive moves", "Market reactions", "Entry threats", "Substitute threats"]
             weight := some 0.25 } ]
       defaultAudience := ["executives", "strategy_teams", "product_managers"]
       defaultQualityChecks :=
         [ { type := "accuracy"
             criteria := ["Data currency", "Source reliability", "Fact verification"]
             threshold := 0.9 },
           { type := "depth"
             criteria := ["Analysis depth", "Insight quality", "Strategic relevance"]
             threshold := 0.85 } ]
       exampleQuestions :=
         [ "Who are your main competitors?",
           "What aspects of competition are most important?",
           "What is your current market position?",
           "What strategic decisions does this need to inform?" ] }),
    ("technology_assessment",
     { id := "technology_assessment"
       name := "Technology Assessment"
       domain := "technology_assessment"
       description := "Evaluation of technologies for adoption or investment"
       defaultDimensions :=
         [ { id := "technical_capabilities", name := "Technical Capabilities"
             description := "Core features, performance, and technical specifications"
             evaluationCriteria := ["Feature completeness", "Performance metrics", "Scalability"]
             dataPoints := ["Key features", "Performance benchmarks", "Architecture", "Limitations"]
             weight := some 0.3 },
           { id := "market_readiness", name := "Market Readiness"
             description := "Maturity, adoption rate, and ecosystem support"
             evaluationCriteria := ["Technology maturity", "Market adoption", "Ecosystem strength"]
             dataPoints := ["TRL level", "User base", "Community support", "Integration options"]
             weight := some 0.25 },
           { id := "implementation_factors", name := "Implementation Considerations"
             description := "Cost, complexity, and resource requirements"
             evaluationCriteria := ["Implementation cost", "Complexity", "Resource needs"]
             dataPoints := ["TCO", "Learning curve", "Infrastructure needs", "Support requirements"]
             weight := some 0.25 },
           { id := "future_potential", name := "Future Potential"
             description := "Innovation trajectory and long-term viability"
             evaluationCriteria := ["Innovation rate", "Vendor stability", "Future roadmap"]
             dataPoints := ["R&D investment", "Patent activity", "Roadmap", "Industry backing"]
             weight := some 0.2 } ]
       defaultAudience := ["ctos", "technical_teams", "innovation_managers"]
       defaultQualityChecks :=
         [ { type := "accuracy"
             criteria := ["Technical accuracy", "Benchmark validity", "Source expertise"]
             threshold := 0.9 },
           { type := "consistency"
             criteria := ["Metric consistency", "Comparison fairness", "Evaluation objectivity"]
             threshold := 0.85 } ]
       exampleQuestions :=
         [ "What is the primary use case for this technology?",
           "What are your technical requirements?",
           "What is your implementation timeline?",
           "Do you have specific vendors in mind?" ] }) ]

/-- `getTemplate` (lines 245-247). -/
def getTemplate (domain : String) : Option ResearchTemplate :=
  (researchTemplates.find? (fun p => p.1 == domain)).map Prod.snd

/-! ## generateResearchPlan (src/configuration-wizard.ts, lines 228-355) -/

/-- JavaScript `s || d` on a string: only the empty string is falsy. -/
def jsStrOr (s d : String) : String :=
  if s = "" then d else s

/-- JavaScript `l || d` on an array: an array (even an empty one) is always
truthy, so the left operand always wins and `d` is dead.  Models line 272's
`audience || ['general']`, whose default could only fire for an undefined
list, which `startConfiguration` precludes. -/
def jsArrOr (l _d : List String) : List String := l

/-- One element of the parsed dimensions array in
`generateCustomDimensions` (lines 318-325); absent keys are `none`. -/
structure RawDimension where
  name : Option String
  description : Option String
  evaluationCriteria : Option (List String)
  dataPoints : Option (List String)
deriving DecidableEq, Repr

/-- Lines 318-325: the mapped dimension (`dim.name || ...` is a string
truthiness test; arrays default only when absent; weight is
`1 / dimensions.length`). -/
def normalizeDimension (total i : Nat) (d : RawDimension) : ResearchDimension :=
  { id := "dimension_" ++ toString (i + 1)
    name := match d.name with
      | some s => if s = "" then "Dimension " ++ toString (i + 1) else s
      | none => "Dimension " ++ toString (i + 1)
    description := d.description.getD ""
    evaluationCriteria := d.evaluationCriteria.getD []
    dataPoints := d.dataPoints.getD []
    weight := some (1 / (total : ℚ)) }

/-- The fallback dimensions of lines 328-353. -/
def fallbackDimensions : List ResearchDimension :=
  [ { id := "dimension_1", name := "Core Analysis"
      description := "Primary research focus area"
      evaluationCriteria := ["Relevance", "Depth", "Evidence quality"]
      dataPoints := ["Key findings", "Supporting data", "Examples"]
      weight := some 0.4 },
    { id := "dimension_2", name := "Context & Background"
      description := "Contextual information and background"
      evaluationCriteria := ["Comprehensiveness", "Relevance", "Currency"]
      dataPoints := ["Historical context", "Current state", "Related factors"]
      weight := some 0.3 },
    { id := "dimension_3", name := "Implications & Applications"
      description := "Practical implications and applications"
      evaluationCriteria := ["Practicality", "Impact", "Feasibility"]
      dataPoints := ["Use cases", "Benefits", "Challenges", "Recommendations"]
      weight := some 0.3 } ]

/-- The hardcoded quality checks of lines 249-265, used when no template
applies. -/
def defaultQualityChecksList : List QualityCheckConfig :=
  [ { type := "completeness"
      criteria := ["All dimensions covered", "Sufficient depth", "Key questions answered"]
      threshold := 0.8 },
    { type := "consistency"
      criteria := ["Internal consistency", "Source agreement", "Logic validity"]
      threshold := 0.85 },
    { type := "bias"
      criteria := ["Source diversity", "Perspective balance", "Confirmation bias check"]
      threshold := 0.75 } ]

/-- `generateCustomDimensions` (lines 284-355): one completion call whose
thrown error propagates (`.error`), whose unparsable output (`.ok none`)
yields the fallback dimensions, and whose parsed array is normalised. -/
def generateCustomDimensions
    (svcDims : Except String (Option (List RawDimension))) :
    Except String (List ResearchDimension) :=
  match svcDims with
  | .error e => .error e
  | .ok none => .ok fallbackDimensions
  | .ok (some raws) => .ok (raws.enum.map (fun p => normalizeDimension raws.length p.1 p.2))

/-- The `dimensions` binding of lines 238-246: the template's defaults when
the template exists and the accumulated domain matches it, otherwise the
outcome of `generateCustomDimensions`. -/
def planDimensions (st : ConversationState)
    (svcDims : Except String (Option (List RawDimension))) :
    Except String (List ResearchDimension) :=
  match st.suggestedTemplate.bind getTemplate with
  | some t =>
    if st.extractedConfig.context.domain = t.domain then .ok t.defaultDimensions
    else generateCustomDimensions svcDims
  | none => generateCustomDimensions svcDims

/-- The `qualityChecks` binding of lines 249-265:
`template?.defaultQualityChecks || [hardcoded]` (a template's list is a
non-empty array, hence truthy). -/
def planQualityChecks (st : ConversationState) : List QualityCheckConfig :=
  match st.suggestedTemplate.bind getTemplate with
  | some t => t.defaultQualityChecks
  | none => defaultQualityChecksList

/-- The `config` literal of lines 267-279. -/
def mkPlanConfig (newId : String) (st : ConversationState)
    (dims : List ResearchDimension) : ResearchConfig :=
  { id := newId
    topic := st.extractedConfig.topic
    context :=
      { domain := jsStrOr st.extractedConfig.context.domain "custom"
        audience := jsArrOr st.extractedConfig.context.audience ["general"]
        perspective := jsStrOr st.extractedConfig.context.perspective "balanced"
        constraints := st.extractedConfig.context.constraints }
    dimensions := dims
    outputFormat := jsStrOr st.extractedConfig.outputFormat "synthesis"
    qualityChecks := planQualityChecks st }

/-- `generateResearchPlan` (lines 228-282).  `newId` models `randomUUID()`;
`svcDims` the dimension-generation completion call (issued only on the
custom path).  The registry is returned unchanged: the method never writes
session state. -/
def generateResearchPlan (w : WizState) (sessionId newId : String)
    (svcDims : Except String (Option (List RawDimension))) :
    Except String ResearchConfig × WizState :=
  match lookupSession w sessionId with
  | none => (.error "Session not found", w)
  | some st =>
    match planDimensions st svcDims with
    | .error e => (.error e, w)
    | .ok dims => (.ok (mkPlanConfig newId st dims), w)

/-- C3: `continueTurn` on a nonexistent session, or on one whose status is
not `active`, fails with the session-state error, issues zero
completion-service calls, and leaves the registry — hence the session's
turns, snapshot and status — exactly as it was. -/
theorem continueConfiguration_invalid_session
    (w : WizState) (sessionId userResponse : String)
    (svcResponse svcExtract : Except String String)
    (parseExtract : String → Option ExtractedJson)
    (hbad : ∀ st, lookupSession w sessionId = some st → st.status ≠ .active) :
    continueConfiguration w sessionId userResponse svcResponse svcExtract parseExtract
      = (.error "Invalid or expired session", w, 0) := by
  unfold continueConfiguration
  match hl : lookupSession w sessionId with
  | none => rfl
  | some st =>
    have hne := hbad st hl
    simp [hne]

/-- A completed session used by the witnesses. -/
def doneSession : ConversationState :=
  { startConfiguration "s1" "hi" "what would you like to research" with
      status := .completed }

/-- Witness for C3: continuing a completed session fails, issues no calls
and changes nothing. -/
theorem continueConfiguration_invalid_session_witness :
    continueConfiguration [("s1", doneSession)] "s1" "more" (.ok "r") (.ok "e")
      (fun _ => none)
      = (.error "Invalid or expired session", [("s1", doneSession)], 0) := by
  apply continueConfiguration_invalid_session
  intro st hst
  have h2 : lookupSession [("s1", doneSession)] "s1" = some doneSession := rfl
  rw [h2, Option.some_inj] at hst
  subst hst
  decide

/-- C10: when the extraction output cannot be parsed as JSON,
`continueTurn` still returns normally with the completion flag `false`, the
session stays `active` (never `completed` on that turn), and the snapshot
keeps every previously extracted field (only the two turns are appended). -/
theorem continueConfiguration_parse_failure
    (w : WizState) (sessionId userResponse : String) (st : ConversationState)
    (response extractText : String) (parseExtract : String → Option ExtractedJson)
    (hlook : lookupSession w sessionId = some st)
    (hactive : st.status = .active)
    (hparse : parseExtract extractText = none) :
    continueConfiguration w sessionId userResponse (.ok response) (.ok extractText)
        parseExtract
      = (.ok { response := response, configComplete := false
               extractedConfig := st.extractedConfig },
         setSession w sessionId
           { st with turns := st.turns
               ++ [{ role := .user, content := userResponse },
                   { role := .assistant, content := response }] },
         2) ∧
    (lookupSession
      (continueConfiguration w sessionId userResponse (.ok response) (.ok extractText)
        parseExtract).2.1 sessionId).map (fun s => s.status) = some .active ∧
    (lookupSession
      (continueConfiguration w sessionId userResponse (.ok response) (.ok extractText)
        parseExtract).2.1 sessionId).map (fun s => s.extractedConfig)
      = some st.extractedConfig := by
  have heq : continueConfiguration w sessionId userResponse (.ok response) (.ok extractText)
        parseExtract
      = (.ok { response := response, configComplete := false
               extractedConfig := st.extractedConfig },
         setSession w sessionId
           { st with turns := st.turns
               ++ [{ role := .user, content := userResponse },
                   { role := .assistant, content := response }] },
         2) := by
    unfold continueConfiguration
    rw [hlook]
    simp [hactive, hparse]
  refine ⟨heq, ?_, ?_⟩
  · rw [heq]
    rw [lookupSession_setSession_self]
    simp [hactive]
  · rw [heq]
    rw [lookupSession_setSession_self]
    rfl

/-- Witness for C10: an active session, a concrete unparsable extraction. -/
theorem continueConfiguration_parse_failure_witness :
    (continueConfiguration [("s2", startConfiguration "s2" "hi" "resp")] "s2" "more"
        (.ok "r") (.ok "not json") (fun _ => none)).1
      = .ok { response := "r", configComplete := false
              extractedConfig := (startConfiguration "s2" "hi" "resp").extractedConfig } ∧
    (lookupSession
      (continueConfiguration [("s2", startConfiguration "s2" "hi" "resp")] "s2" "more"
        (.ok "r") (.ok "not json") (fun _ => none)).2.1 "s2").map (fun s => s.status)
      = some .active := by
  have h := continueConfiguration_parse_failure
    [("s2", startConfiguration "s2" "hi" "resp")] "s2" "more"
    (startConfiguration "s2" "hi" "resp") "r" "not json" (fun _ => none)
    rfl rfl rfl
  exact ⟨by rw [h.1], h.2.1⟩

/-- A populated snapshot used by the C4 theorems. -/
def sampleSnapshot : ExtractedConfig :=
  { topic := "t"
    context := { domain := "market_research", audience := ["investors"]
                 perspective := "business", constraints := none }
    dimensions := []
    outputFormat := "deep_dive"
    qualityChecks := [] }

/-- An extraction that carries a present-but-empty audience array and a
present dimensions array. -/
def emptyAudienceExtraction : ExtractedJson :=
  { domain := none, audience := some [], perspective := none
    dimensions := some ["pricing"], outputFormat := none, constraints := none
    isComplete := none }

/-- C4 counterexample: an audience field that is present in the extraction
but empty does not overwrite the snapshot (JavaScript `audience?.length` is
falsy on `[]`), and a present `dimensions` field is never applied at all,
so "each snapshot field present in the extraction overwrites the
corresponding snapshot field" fails as stated. -/
theorem applyExtraction_overwrite_cx :
    emptyAudienceExtraction.audience = some [] ∧
    (applyExtraction sampleSnapshot emptyAudienceExtraction).context.audience
      = ["investors"] ∧
    (["investors"] : List String) ≠ [] ∧
    emptyAudienceExtraction.dimensions = some ["pricing"] ∧
    (applyExtraction sampleSnapshot emptyAudienceExtraction).dimensions = [] := by
  refine ⟨rfl, rfl, by decide, rfl, rfl⟩

/-- C4 (amended): each of the five handled extraction fields — domain,
audience, perspective, output format, constraints — overwrites its snapshot
field when present with a truthy value (non-empty string, non-empty array,
any object), and keeps the prior snapshot value when absent; the topic,
dimension list and quality checks of the snapshot are never touched by the
merge; hence a field set in turn 1 and omitted by turn 2's extraction is
unchanged after turn 2. -/
theorem applyExtraction_merge (cfg : ExtractedConfig) (ej ej2 : ExtractedJson) :
    (∀ d, ej.domain = some d → d ≠ "" →
      (applyExtraction cfg ej).context.domain = d) ∧
    (ej.domain = none →
      (applyExtraction cfg ej).context.domain = cfg.context.domain) ∧
    (∀ l, ej.audience = some l → l ≠ [] →
      (applyExtraction cfg ej).context.audience = l) ∧
    (ej.audience = none →
      (applyExtraction cfg ej).context.audience = cfg.context.audience) ∧
    (∀ s, ej.perspective = some s → s ≠ "" →
      (applyExtraction cfg ej).context.perspective = s) ∧
    (ej.perspective = none →
      (applyExtraction cfg ej).context.perspective = cfg.context.perspective) ∧
    (∀ s, ej.outputFormat = some s → s ≠ "" →
      (applyExtraction cfg ej).outputFormat = s) ∧
    (ej.outputFormat = none →
      (applyExtraction cfg ej).outputFormat = cfg.outputFormat) ∧
    (∀ c, ej.constraints = some c →
      (applyExtraction cfg ej).context.constraints = some c) ∧
    (ej.constraints = none →
      (applyExtraction cfg ej).context.constraints = cfg.context.constraints) ∧
    (applyExtraction cfg ej).topic = cfg.topic ∧
    (applyExtraction cfg ej).dimensions = cfg.dimensions ∧
    (applyExtraction cfg ej).qualityChecks = cfg.qualityChecks ∧
    (ej2.audience = none →
      (applyExtraction (applyExtraction cfg ej) ej2).context.audience
        = (applyExtraction cfg ej).context.audience) := by
  refine ⟨?_, ?_, ?_, ?_, ?_, ?_, ?_, ?_, ?_, ?_, rfl, rfl, rfl, ?_⟩
  · intro d hd hne
    simp [applyExtraction, hd, hne]
  · intro hd
    simp [applyExtraction, hd]
  · intro l hl hne
    simp [applyExtraction, hl, hne]
  · intro hl
    simp [applyExtraction, hl]
  · intro s hs hne
    simp [applyExtraction, hs, hne]
  · intro hs
    simp [applyExtraction, hs]
  · intro s hs hne
    simp [applyExtraction, hs, hne]
  · intro hs
    simp [applyExtraction, hs]
  · intro c hc
    simp [applyExtraction, hc]
  · intro hc
    simp [applyExtraction, hc]
  · intro h2
    simp [applyExtraction, h2]

/-- Witness for C4: a truthy domain overwrites; an absent audience keeps
the turn-1 value. -/
theorem applyExtraction_merge_witness :
    (applyExtraction sampleSnapshot
      { domain := some "academic_research", audience := none, perspective := none
        dimensions := none, outputFormat := none, constraints := none
        isComplete := none }).context.domain = "academic_research" ∧
    (applyExtraction sampleSnapshot
      { domain := some "academic_research", audience := none, perspective := none
        dimensions := none, outputFormat := none, constraints := none
        isComplete := none }).context.audience = ["investors"] := by
  have h := applyExtraction_merge sampleSnapshot
    { domain := some "academic_research", audience := none, perspective := none
      dimensions := none, outputFormat := none, constraints := none
      isComplete := none }
    { domain := none, audience := none, perspective := none
      dimensions := none, outputFormat := none, constraints := none
      isComplete := none }
  exact ⟨h.1 "academic_research" rfl (by decide), h.2.2.2.1 rfl⟩

theorem jsStrOr_ne_empty (s d : String) (hd : d ≠ "") : jsStrOr s d ≠ "" := by
  unfold jsStrOr
  split
  · exact hd
  · rename_i h; exact h

/-- Every registered template carries a non-empty quality-check list. -/
theorem getTemplate_qualityChecks_ne_nil (domain : String) (t : ResearchTemplate)
    (h : getTemplate domain = some t) : t.defaultQualityChecks ≠ [] := by
  unfold getTemplate at h
  match hf : researchTemplates.find? (fun p => p.1 == domain) with
  | none => rw [hf] at h; cases h
  | some p =>
    rw [hf] at h
    have hp : p ∈ researchTemplates := List.mem_of_find?_eq_some hf
    rw [Option.map_some', Option.some_inj] at h
    subst h
    fin_cases hp <;> decide

theorem generateCustomDimensions_error_iff
    (svcDims : Except String (Option (List RawDimension))) (e : String) :
    generateCustomDimensions svcDims = .error e ↔ svcDims = .error e := by
  cases svcDims with
  | error e' => simp [generateCustomDimensions]
  | ok o => cases o with
    | none => simp [generateCustomDimensions]
    | some raws => simp [generateCustomDimensions]

/-- `planDimensions` fails exactly when the custom path is taken and the
dimension-generation call throws. -/
theorem planDimensions_error_iff (st : ConversationState)
    (svcDims : Except String (Option (List RawDimension))) (e : String) :
    planDimensions st svcDims = .error e ↔
      ((∀ t, st.suggestedTemplate.bind getTemplate = some t →
          st.extractedConfig.context.domain ≠ t.domain) ∧ svcDims = .error e) := by
  unfold planDimensions
  cases hb : st.suggestedTemplate.bind getTemplate with
  | some t =>
    change (if st.extractedConfig.context.domain = t.domain then Except.ok t.defaultDimensions
        else generateCustomDimensions svcDims) = Except.error e ↔ _
    by_cases hd : st.extractedConfig.context.domain = t.domain
    · rw [if_pos hd]
      constructor
      · intro h; cases h
      · rintro ⟨hall, _⟩
        exact absurd hd (hall t rfl)
    · rw [if_neg hd, generateCustomDimensions_error_iff]
      constructor
      · intro h
        refine ⟨?_, h⟩
        intro t' ht'
        rw [Option.some_inj] at ht'
        subst ht'
        exact hd
      · rintro ⟨_, h⟩; exact h
  | none =>
    change generateCustomDimensions svcDims = Except.error e ↔ _
    rw [generateCustomDimensions_error_iff]
    constructor
    · intro h
      refine ⟨?_, h⟩
      intro t' ht'
      cases ht'
    · rintro ⟨_, h⟩; exact h

/-- Reduction of `generateResearchPlan` on an existing session. -/
theorem generateResearchPlan_some (w : WizState) (sessionId newId : String)
    (svcDims : Except String (Option (List RawDimension))) (st : ConversationState)
    (hl : lookupSession w sessionId = some st) :
    generateResearchPlan w sessionId newId svcDims
      = match planDimensions st svcDims with
        | .error e => (.error e, w)
        | .ok dims => (.ok (mkPlanConfig newId st dims), w) := by
  unfold generateResearchPlan
  rw [hl]

/-- The assembled quality-check list is never empty: it is either a
template's (non-empty) list or the three hardcoded checks. -/
theorem planQualityChecks_ne_nil (st : ConversationState) :
    planQualityChecks st ≠ [] := by
  unfold planQualityChecks
  cases hb : st.suggestedTemplate.bind getTemplate with
  | none => decide
  | some t =>
    rcases Option.bind_eq_some.mp hb with ⟨nm, _, hget⟩
    exact getTemplate_qualityChecks_ne_nil nm t hget

/-- A freshly started session: no template hint, empty audience. -/
def freshSession : ConversationState := startConfiguration "s1" "hi" "resp"

/-- C5 counterexample: `finalize` does not fail *only* on a missing
session — here the session exists, yet the call fails because the
dimension-generation completion call throws; and an existing-but-empty
audience list is returned as-is (`[] || ['general']` keeps `[]` because
arrays are truthy), so the audience piece is neither defaulted nor
populated. -/
theorem generateResearchPlan_cx :
    (lookupSession [("s1", freshSession)] "s1").isSome = true ∧
    (generateResearchPlan [("s1", freshSession)] "s1" "cfg1" (.error "service down")).1
      = .error "service down" ∧
    ((generateResearchPlan [("s1", freshSession)] "s1" "cfg1" (.ok none)).1.map
        (fun cfg => cfg.context.audience)) = .ok [] ∧
    ([] : List String) ≠ ["general"] := by
  refine ⟨rfl, rfl, rfl, by decide⟩

/-- C5 (amended): `finalize` fails when no session exists, and also when
the custom-dimension path is taken and that completion call throws; it
never changes the registry; on success the configuration carries the
session's topic, defaults `"custom"` / `"balanced"` / `"synthesis"` for an
empty domain/perspective/output format, the audience list exactly as
accumulated (an empty list included), a non-empty quality-check list, the
template's dimensions on the template path, and the three fallback
dimensions when the generated dimensions are unparsable. -/
theorem generateResearchPlan_spec (w : WizState) (sessionId newId : String)
    (svcDims : Except String (Option (List RawDimension))) :
    (lookupSession w sessionId = none →
      generateResearchPlan w sessionId newId svcDims = (.error "Session not found", w)) ∧
    ((generateResearchPlan w sessionId newId svcDims).2 = w) ∧
    ((∃ e, (generateResearchPlan w sessionId newId svcDims).1 = .error e) ↔
      (lookupSession w sessionId = none ∨
       ∃ st, lookupSession w sessionId = some st ∧
         (∀ t, st.suggestedTemplate.bind getTemplate = some t →
            st.extractedConfig.context.domain ≠ t.domain) ∧
         ∃ e, svcDims = .error e)) ∧
    (∀ st cfg, lookupSession w sessionId = some st →
      (generateResearchPlan w sessionId newId svcDims).1 = .ok cfg →
      cfg.id = newId ∧
      cfg.topic = st.extractedConfig.topic ∧
      cfg.context.domain = jsStrOr st.extractedConfig.context.domain "custom" ∧
      cfg.context.domain ≠ "" ∧
      cfg.context.audience = st.extractedConfig.context.audience ∧
      cfg.context.perspective = jsStrOr st.extractedConfig.context.perspective "balanced" ∧
      cfg.context.perspective ≠ "" ∧
      cfg.outputFormat = jsStrOr st.extractedConfig.outputFormat "synthesis" ∧
      cfg.outputFormat ≠ "" ∧
      cfg.qualityChecks ≠ []) ∧
    (∀ st, lookupSession w sessionId = some st →
      st.suggestedTemplate.bind getTemplate = none → svcDims = .ok none →
      ∀ cfg, (generateResearchPlan w sessionId newId svcDims).1 = .ok cfg →
        cfg.dimensions = fallbackDimensions) ∧
    (∀ st t, lookupSession w sessionId = some st →
      st.suggestedTemplate.bind getTemplate = some t →
      st.extractedConfig.context.domain = t.domain →
      ∀ cfg, (generateResearchPlan w sessionId newId svcDims).1 = .ok cfg →
        cfg.dimensions = t.defaultDimensions ∧
        cfg.qualityChecks = t.defaultQualityChecks) := by
  refine ⟨?_, ?_, ?_, ?_, ?_, ?_⟩
  · intro hl
    unfold generateResearchPlan
    rw [hl]
  · cases hl : lookupSession w sessionId with
    | none =>
      unfold generateResearchPlan
      rw [hl]
    | some st =>
      rw [generateResearchPlan_some w sessionId newId svcDims st hl]
      cases hpd : planDimensions st svcDims with
      | error e => rfl
      | ok dims => rfl
  · constructor
    · rintro ⟨e, he⟩
      cases hl : lookupSession w sessionId with
      | none => exact Or.inl rfl
      | some st =>
        rw [generateResearchPlan_some w sessionId newId svcDims st hl] at he
        cases hpd : planDimensions st svcDims with
        | ok dims =>
          rw [hpd] at he
          simp at he
        | error e' =>
          rw [hpd] at he
          have hee : e' = e := by simpa using he
          subst hee
          have h := (planDimensions_error_iff st svcDims e').mp hpd
          exact Or.inr ⟨st, rfl, h.1, ⟨e', h.2⟩⟩
    · rintro (hl | ⟨st, hl, hall, ⟨e, hsvc⟩⟩)
      · refine ⟨"Session not found", ?_⟩
        unfold generateResearchPlan
        rw [hl]
      · refine ⟨e, ?_⟩
        rw [generateResearchPlan_some w sessionId newId svcDims st hl,
          (planDimensions_error_iff st svcDims e).mpr ⟨hall, hsvc⟩]
  · intro st cfg hl hok
    rw [generateResearchPlan_some w sessionId newId svcDims st hl] at hok
    cases hpd : planDimensions st svcDims with
    | error e =>
      rw [hpd] at hok
      simp at hok
    | ok dims =>
      rw [hpd] at hok
      have hcfg : mkPlanConfig newId st dims = cfg := by simpa using hok
      subst hcfg
      exact ⟨rfl, rfl, rfl, jsStrOr_ne_empty _ _ (by decide), rfl, rfl,
        jsStrOr_ne_empty _ _ (by decide), rfl, jsStrOr_ne_empty _ _ (by decide),
        planQualityChecks_ne_nil st⟩
  · intro st hl hb hsvc cfg hok
    rw [generateResearchPlan_some w sessionId newId svcDims st hl] at hok
    have hpd : planDimensions st svcDims = .ok fallbackDimensions := by
      unfold planDimensions
      rw [hb, hsvc]
      rfl
    rw [hpd] at hok
    have hcfg : mkPlanConfig newId st fallbackDimensions = cfg := by simpa using hok
    subst hcfg
    rfl
  · intro st t hl hb hd cfg hok
    rw [generateResearchPlan_some w sessionId newId svcDims st hl] at hok
    have hpd : planDimensions st svcDims = .ok t.defaultDimensions := by
      unfold planDimensions
      rw [hb]
      change (if st.extractedConfig.context.domain = t.domain then Except.ok t.defaultDimensions
          else generateCustomDimensions svcDims) = _
      rw [if_pos hd]
    rw [hpd] at hok
    have hcfg : mkPlanConfig newId st t.defaultDimensions = cfg := by simpa using hok
    subst hcfg
    refine ⟨rfl, ?_⟩
    show planQualityChecks st = t.defaultQualityChecks
    unfold planQualityChecks
    rw [hb]

/-- Witness for C5: finalising against an empty registry fails with the
session-not-found error and leaves the registry unchanged. -/
theorem generateResearchPlan_spec_witness :
    generateResearchPlan [] "s1" "cfg1" (.ok none) = (.error "Session not found", []) := by
  have h := generateResearchPlan_spec [] "s1" "cfg1" (.ok none)
  exact h.1 rfl

end ResearchServer
